import Mathlib

/-!
# Unitree G1 battery SDK manager: lifecycle, snapshot store and callback dispatch

A shallow embedding of `src/internal/sdk/unitree/g1_sdk.cpp` (simulated-DDS build, i.e.
`USE_REAL_DDS` undefined) and of the transfer structure of `src/g1_sdk.h`.

Conventions of the embedding.

* `double` is Lean's `Float` (IEEE binary64); the arithmetic of the source is written out with
  the same operations. No theorem below depends on the value of a floating-point expression,
  only on which value is stored where.
* `std::string`, `char[]` buffers and `const char*` texts are lists of bytes (`List UInt8`);
  an array of the C structure is a list whose length is the declared array length.
* A pointer argument is an `Option`: `none` is the null pointer, `some b` a pointer to a buffer
  whose content before the call is `b`. A function that writes through the pointer returns the
  content of the buffer after the call.
* A member function takes the manager state; one that assigns a member returns the new state
  next to its result.
* The process-wide singleton is the value `G1SDKManager.getInstance rand`; `rand n` is the value
  returned by the `n`-th call of `rand()` made by the constructor of `BmsState`.
* The external readings of the code are inputs: the system clock read by one acquisition cycle
  (`now`, the signed millisecond count of `system_clock`), the outcome of starting the thread in
  `connect()` (`ThreadStart`), and the indeterminate content of the local `G1BatteryStatus` of
  `dataReceiveLoop`.
* `int counter` of `updateSimulatedData` is an unbounded integer: its overflow (after `2^31`
  cycles) is undefined behaviour in the source and no statement below reaches it.
-/

namespace G1SDK

/-! ## Texts -/

/-- The bytes of a source-code string literal (the source file is UTF-8). -/
def utf8 (s : String) : List UInt8 := (String.toUTF8 s).data.toList

/-- The text of line 109: `"SDK未初始化"`. -/
def ERR_NOT_INITIALIZED : List UInt8 := utf8 ("SDK未初始化")

/-- The text of line 135: `"连接失败: "`. -/
def ERR_CONNECT_FAILED : List UInt8 := utf8 ("连接失败: ")

/-- The text of line 162: `"状态指针为空"`. -/
def ERR_NULL_STATUS : List UInt8 := utf8 ("状态指针为空")

/-- The text of line 167: `"未连接到机器人"`. -/
def ERR_NOT_CONNECTED : List UInt8 := utf8 ("未连接到机器人")

/-- The C string held by a byte sequence: the bytes before the first NUL
(`std::string::c_str()` read as a C string, or `std::string(const char*)`). -/
def c_str (s : List UInt8) : List UInt8 := s.takeWhile (fun b => b != 0)

/-- C `strlen` of the text of a byte sequence. -/
def strlen (s : List UInt8) : Nat := (c_str s).length

/-- C `strncpy(dest, src, n)`: exactly `n` bytes of `dest` are written, the first
`min (strlen src) n` of them from `src`, the rest NUL; the bytes of `dest` from index `n` on
are kept. The result is longer than `dest` exactly when the call writes past its end. -/
def strncpy (dest src : List UInt8) (n : Nat) : List UInt8 :=
  let body := (c_str src).take n
  body ++ List.replicate (n - body.length) 0 ++ dest.drop n

/-! ## Data model -/

/-- The simulated DDS message `unitree::robot::g1::BmsState` (lines 21-49). -/
structure BmsState where
  voltage : Float
  current : Float
  temperature : Float
  capacity : Float
  cycle_count : Nat
  cell_voltages : List Float
  temperatures : List Float
  is_charging : Bool
  is_discharging : Bool
  health_status : Nat
  error_code : Nat
  error_message : List UInt8
  timestamp : Nat

/-- The constructor `BmsState::BmsState()` with the member initialisers of lines 22-34;
`rand i` is the result of the `i`-th call of `rand()`. -/
def BmsState.ctor (rand : Nat → Nat) : BmsState where
  voltage := 25.2
  current := -2.5
  temperature := 35.0
  capacity := 85.0
  cycle_count := 150
  cell_voltages := (List.range 40).map (fun i => 3.7 + Float.ofNat (rand i % 100) / 1000.0)
  temperatures := (List.range 12).map (fun i => 30.0 + Float.ofNat (rand (40 + i) % 100) / 10.0)
  is_charging := false
  is_discharging := true
  health_status := 95
  error_code := 0
  error_message := []
  timestamp := 0

/-- The C structure `G1BatteryStatus` of `g1_sdk.h`. -/
structure G1BatteryStatus where
  voltage : Float
  current : Float
  temperature : Float
  capacity : Float
  cycle_count : Nat
  cell_voltages : List Float
  temperatures : List Float
  is_charging : Bool
  is_discharging : Bool
  health_status : Nat
  error_code : Nat
  error_message : List UInt8
  timestamp : Nat

/-- The array lengths the C type gives a `G1BatteryStatus`:
`cell_voltages[40]`, `temperatures[12]`, `error_message[256]`. -/
def G1BatteryStatus.WellFormed (st : G1BatteryStatus) : Prop :=
  st.cell_voltages.length = 40 ∧ st.temperatures.length = 12 ∧ st.error_message.length = 256

/-- The type `BatteryStatusCallback`: a function pointer, identified by its address. -/
abbrev BatteryStatusCallback := Nat

/-- The members of `G1SDKManager` (lines 56-64), the function-local `static int counter` of
`updateSimulatedData`, and one ghost field, `threads_alive`: the number of acquisition threads
that were started and not yet joined. `data_thread_` is true when the `unique_ptr` holds a
thread. -/
structure G1SDKManager where
  initialized_ : Bool
  connected_ : Bool
  data_thread_ : Bool
  running_ : Bool
  latest_bms_data_ : BmsState
  callback_ : Option BatteryStatusCallback
  last_error_ : List UInt8
  counter : Int
  threads_alive : Nat

/-- The singleton as `getInstance()` constructs it. -/
def G1SDKManager.getInstance (rand : Nat → Nat) : G1SDKManager where
  initialized_ := false
  connected_ := false
  data_thread_ := false
  running_ := false
  latest_bms_data_ := BmsState.ctor rand
  callback_ := none
  last_error_ := []
  counter := 0
  threads_alive := 0

/-- What `std::make_unique<std::thread>(...)` of line 129 does: the thread starts, or the
call throws a `std::exception` whose `what()` is the given text. -/
inductive ThreadStart where
  | started
  | throws (what : List UInt8)

/-! ## Member functions -/

/-- `G1SDKManager::initialize` (lines 72-97). Nothing in the `try` block throws, so the
`catch` branch is not reached. -/
def G1SDKManager.initialize (s : G1SDKManager) (_config_path : Option (List UInt8)) :
    Int × G1SDKManager :=
  if s.initialized_ then (0, s)
  else (0, { s with initialized_ := true })

/-- `G1SDKManager::disconnect` (lines 141-154). Joining the thread ends it. The iteration that
is in flight when `running_` is cleared reads neither `running_` nor anything this call changes
before the join returns, so it counts as an iteration before the call. -/
def G1SDKManager.disconnect (s : G1SDKManager) : Int × G1SDKManager :=
  if !s.connected_ then (0, s)
  else
    let s1 := { s with running_ := false }
    let s2 := if s1.data_thread_ then { s1 with threads_alive := s1.threads_alive - 1 } else s1
    (0, { s2 with data_thread_ := false, connected_ := false })

/-- `G1SDKManager::cleanup` (lines 99-105). -/
def G1SDKManager.cleanup (s : G1SDKManager) : G1SDKManager :=
  if !s.initialized_ then s
  else { s.disconnect.2 with initialized_ := false }

/-- `G1SDKManager::isConnected` (lines 156-158). -/
def G1SDKManager.isConnected (s : G1SDKManager) : Bool := s.connected_

/-- The copy loops of lines 186-193, `for (i = 0; i < n && i < src.size(); i++) dst[i] = src[i]`,
entered at index `i` with `k = n - i` indices left below the bound `n`. -/
def copyLoop {α : Type} (src : List α) : Nat → Nat → List α → List α
  | 0, _, dst => dst
  | k + 1, i, dst =>
    if h : i < src.length then copyLoop src k (i + 1) (dst.set i (src.get ⟨i, h⟩)) else dst

/-- Lines 173-197 of `getBatteryStatus`: the stored sample `d` written, field by field, through
the pointer `status`, whose structure held `st` before. -/
def convert (d : BmsState) (st : G1BatteryStatus) : G1BatteryStatus where
  voltage := d.voltage
  current := d.current
  temperature := d.temperature
  capacity := d.capacity
  cycle_count := d.cycle_count
  is_charging := d.is_charging
  is_discharging := d.is_discharging
  health_status := d.health_status
  error_code := d.error_code
  timestamp := d.timestamp
  cell_voltages := copyLoop d.cell_voltages 40 0 st.cell_voltages
  temperatures := copyLoop d.temperatures 12 0 st.temperatures
  error_message := (strncpy st.error_message d.error_message 255).set 255 0

/-- `G1SDKManager::getBatteryStatus` (lines 160-200). Returns the status code, the manager and
the content of the caller's buffer after the call. -/
def G1SDKManager.getBatteryStatus (s : G1SDKManager) (status : Option G1BatteryStatus) :
    Int × G1SDKManager × Option G1BatteryStatus :=
  match status with
  | none => (-1, { s with last_error_ := ERR_NULL_STATUS }, none)
  | some st =>
    if !s.connected_ then (-1, { s with last_error_ := ERR_NOT_CONNECTED }, some st)
    else (0, s, some (convert s.latest_bms_data_ st))

/-- `G1SDKManager::setBatteryCallback` (lines 210-213). -/
def G1SDKManager.setBatteryCallback (s : G1SDKManager) (callback : Option BatteryStatusCallback) :
    Int × G1SDKManager :=
  (0, { s with callback_ := callback })

/-- `std::max(a, b)` on doubles: `(a < b) ? b : a`. -/
def std_max (a b : Float) : Float := if a < b then b else a

/-- The conversion of the signed clock count to the `uint64_t timestamp`. -/
def toUInt64 (now : Int) : Nat := (now % 2 ^ 64).toNat

/-- `G1SDKManager::updateSimulatedData` (lines 250-283); `now` is the millisecond count of
`system_clock::now()` read at line 271. -/
def G1SDKManager.updateSimulatedData (s : G1SDKManager) (now : Int) : G1SDKManager :=
  let counter := s.counter + 1
  let c := Float.ofInt counter
  let d := s.latest_bms_data_
  { s with
    counter := counter
    latest_bms_data_ :=
      { d with
        voltage := 25.2 + 0.1 * Float.sin (c * 0.1)
        current := -2.5 + 0.2 * Float.sin (c * 0.15)
        temperature := 35.0 + 2.0 * Float.sin (c * 0.05)
        capacity := if Int.tmod counter 100 = 0 then std_max 0.0 (d.capacity - 0.1) else d.capacity
        timestamp := toUInt64 now
        cell_voltages := (List.range d.cell_voltages.length).map
          (fun i => 3.7 + 0.1 * Float.sin (c * 0.1 + Float.ofNat i * 0.1))
        temperatures := (List.range d.temperatures.length).map
          (fun i => 30.0 + 5.0 * Float.sin (c * 0.05 + Float.ofNat i * 0.2)) } }

/-- A call of the registered subscriber: the function called and the structure it is given. -/
abbrev Call := BatteryStatusCallback × G1BatteryStatus

/-- One iteration of the `while (running_)` loop of `G1SDKManager::dataReceiveLoop`
(lines 220-244): the store is refreshed, then the subscriber, when there is one and the read-back
`getBatteryStatus(&status) == 0` succeeds, is called with the local copy. `status` is the content
of the uninitialised local `G1BatteryStatus`. Returns the manager and the calls made. -/
def G1SDKManager.dataReceiveLoop_iteration (s : G1SDKManager) (now : Int)
    (status : G1BatteryStatus) : G1SDKManager × List Call :=
  let s1 := s.updateSimulatedData now
  match s1.callback_ with
  | none => (s1, [])
  | some callback =>
    let r := s1.getBatteryStatus (some status)
    if r.1 = 0 then (r.2.1, r.2.2.toList.map (fun out => (callback, out)))
    else (r.2.1, [])

/-- `G1SDKManager::dataReceiveLoop` (lines 216-248) run by the acquisition thread without a
foreground call in between: one iteration per element of `inputs` (the clock reading and the
content of the local of that iteration) for as long as `running_` holds. -/
def G1SDKManager.dataReceiveLoop (s : G1SDKManager) :
    List (Int × G1BatteryStatus) → G1SDKManager × List Call
  | [] => (s, [])
  | (now, status) :: rest =>
    if s.running_ then
      let r := s.dataReceiveLoop_iteration now status
      let r2 := G1SDKManager.dataReceiveLoop r.1 rest
      (r2.1, r.2 ++ r2.2)
    else (s, [])

/-- Lines 128-129 of `connect()`: the running flag is set and the thread is started. -/
def G1SDKManager.connect_spawn (s : G1SDKManager) : G1SDKManager :=
  { s with running_ := true, data_thread_ := true, threads_alive := s.threads_alive + 1 }

/-- Line 131 of `connect()`. -/
def G1SDKManager.connect_finish (s : G1SDKManager) : G1SDKManager :=
  { s with connected_ := true }

/-- `G1SDKManager::connect` (lines 107-139). The thread started at line 129 runs concurrently
with the rest of `connect()`: `early` holds the inputs of the iterations it completes before
line 131 sets `connected_` (none, when the caller gets there first). Returns the status code,
the manager and the subscriber calls made by those iterations. -/
def G1SDKManager.connect (s : G1SDKManager) (ts : ThreadStart)
    (early : List (Int × G1BatteryStatus)) : Int × G1SDKManager × List Call :=
  if !s.initialized_ then (-1, { s with last_error_ := ERR_NOT_INITIALIZED }, [])
  else if s.connected_ then (0, s, [])
  else
    match ts with
    | .started =>
      let r := s.connect_spawn.dataReceiveLoop early
      (0, r.1.connect_finish, r.2)
    | .throws what =>
      (-1, { s with running_ := true, last_error_ := ERR_CONNECT_FAILED ++ c_str what }, [])

/-! ## Sequences of operations and acquisition cycles -/

/-- The public C interface of `g1_sdk.h`, one constructor per function with the inputs of the
call, and `cycle`: one iteration of the acquisition thread between two calls. The store is
written and read under `data_mutex_`, so a call and an iteration do not overlap on it. -/
inductive Event where
  | g1_sdk_init (config_path : Option (List UInt8))
  | g1_sdk_cleanup
  | g1_sdk_connect (ts : ThreadStart) (early : List (Int × G1BatteryStatus))
  | g1_sdk_disconnect
  | g1_sdk_is_connected
  | g1_sdk_get_battery_status (status : Option G1BatteryStatus)
  | g1_sdk_get_last_error (buffer : Option (List UInt8)) (buffer_size : Int)
  | g1_sdk_set_battery_callback (callback : Option BatteryStatusCallback)
  | cycle (now : Int) (status : G1BatteryStatus)

/-- What a consumer sees of a snapshot: the structure a successful `g1_sdk_get_battery_status`
filled in, or the structure passed to the subscriber. -/
inductive Obs where
  | polled (out : G1BatteryStatus)
  | pushed (callback : BatteryStatusCallback) (arg : G1BatteryStatus)

/-- The timestamp of an observed snapshot. -/
def Obs.timestamp : Obs → Nat
  | .polled out => out.timestamp
  | .pushed _ arg => arg.timestamp

/-- The subscriber calls as observations. -/
def pushedAll (calls : List Call) : List Obs := calls.map (fun c => Obs.pushed c.1 c.2)

/-- One event: the manager after it and the snapshots it showed to consumers. An iteration of
the acquisition thread takes place only while the thread exists and `running_` holds. -/
def step (s : G1SDKManager) : Event → G1SDKManager × List Obs
  | .g1_sdk_init config_path => (( s.initialize config_path).2, [])
  | .g1_sdk_cleanup => (s.cleanup, [])
  | .g1_sdk_connect ts early => ((s.connect ts early).2.1, pushedAll (s.connect ts early).2.2)
  | .g1_sdk_disconnect => (s.disconnect.2, [])
  | .g1_sdk_is_connected => (s, [])
  | .g1_sdk_get_battery_status status =>
    let r := s.getBatteryStatus status
    (r.2.1, if r.1 = 0 then r.2.2.toList.map Obs.polled else [])
  | .g1_sdk_get_last_error _ _ => (s, [])
  | .g1_sdk_set_battery_callback callback => ((s.setBatteryCallback callback).2, [])
  | .cycle now status =>
    if s.data_thread_ && s.running_ then
      ((s.dataReceiveLoop_iteration now status).1,
        pushedAll (s.dataReceiveLoop_iteration now status).2)
    else (s, [])

/-- A sequence of events from a given manager: the final manager and all observations, in
order. -/
def run (s : G1SDKManager) : List Event → G1SDKManager × List Obs
  | [] => (s, [])
  | e :: es => ((run (step s e).1 es).1, (step s e).2 ++ (run (step s e).1 es).2)

/-- The managers the program can be in between two events. -/
def Reachable (s : G1SDKManager) : Prop :=
  ∃ (rand : Nat → Nat) (es : List Event), s = (run (G1SDKManager.getInstance rand) es).1

/-- The clock readings an event takes when it happens in manager `s`, in the order they are
taken: those of the iterations that run. -/
def Event.clock (s : G1SDKManager) : Event → List Int
  | .g1_sdk_connect .started early =>
    if s.initialized_ && !s.connected_ then early.map (fun e => e.1) else []
  | .cycle now _ => if s.data_thread_ && s.running_ then [now] else []
  | _ => []

/-- The successive readings of the system clock over a sequence of events from `s`. -/
def clockReadings (s : G1SDKManager) : List Event → List Int
  | [] => []
  | e :: es => Event.clock s e ++ clockReadings (step s e).1 es

/-! ## Invariants -/

/-- What holds of the manager between two events: the thread exists exactly while
`connected_` holds, a connected manager is initialised and running, the stored sample has the
40 and 12 entries the constructor gave it and an empty message, and the recorded error holds no
NUL byte. -/
structure Inv (s : G1SDKManager) : Prop where
  thread : s.data_thread_ = s.connected_
  alive : s.threads_alive = if s.connected_ then 1 else 0
  init : s.connected_ = true → s.initialized_ = true
  running : s.connected_ = true → s.running_ = true
  cells : s.latest_bms_data_.cell_voltages.length = 40
  temps : s.latest_bms_data_.temperatures.length = 12
  message : s.latest_bms_data_.error_message = []
  error_text : ∀ b ∈ s.last_error_, b ≠ 0

/-- What one iteration, or a run of iterations, of the acquisition loop leaves as it was: the
lifecycle flags, the thread, the subscriber, the sizes of the stored vectors and the stored
message; the recorded error stays free of NUL bytes. -/
structure Frame (s r : G1SDKManager) : Prop where
  initialized : r.initialized_ = s.initialized_
  connected : r.connected_ = s.connected_
  thread : r.data_thread_ = s.data_thread_
  running : r.running_ = s.running_
  alive : r.threads_alive = s.threads_alive
  callback : r.callback_ = s.callback_
  cells : r.latest_bms_data_.cell_voltages.length = s.latest_bms_data_.cell_voltages.length
  temps : r.latest_bms_data_.temperatures.length = s.latest_bms_data_.temperatures.length
  message : r.latest_bms_data_.error_message = s.latest_bms_data_.error_message
  error_text : (∀ b ∈ s.last_error_, b ≠ 0) → ∀ b ∈ r.last_error_, b ≠ 0

/-! ## Timestamps seen by consumers -/

/-- The readings `R` taken from stored timestamp `t0` on: each is a non-negative 64-bit count,
none is below `t0`, and they do not decrease. -/
def MonoFrom (t0 : Nat) (R : List Int) : Prop :=
  R.Pairwise (fun a b => a ≤ b) ∧ ∀ r ∈ R, 0 ≤ r ∧ r < 2 ^ 64 ∧ t0 ≤ r.toNat

/-- A stretch of execution that starts with stored timestamp `t0`, takes the readings `R`, shows
the timestamps `O` and ends with stored timestamp `t1`: the shown timestamps do not decrease and
lie between `t0` and `t1`, and `t1` is below every bound on `t0` and the readings. -/
def Seg (t0 : Nat) (R : List Int) (O : List Nat) (t1 : Nat) : Prop :=
  O.Pairwise (fun a b => a ≤ b) ∧ (∀ o ∈ O, t0 ≤ o ∧ o ≤ t1) ∧ t0 ≤ t1 ∧
    ∀ B : Nat, t0 ≤ B → (∀ r ∈ R, r.toNat ≤ B) → t1 ≤ B

/-- The timestamps a sequence of events shows to consumers, in order. -/
def observedTimestamps (s : G1SDKManager) (es : List Event) : List Nat :=
  (run s es).2.map Obs.timestamp

/-! ## Example managers and runs -/

/-- A caller's buffer with every byte and entry zero, for the examples. -/
def zeroStatus : G1BatteryStatus where
  voltage := 0.0
  current := 0.0
  temperature := 0.0
  capacity := 0.0
  cycle_count := 0
  cell_voltages := List.replicate 40 0.0
  temperatures := List.replicate 12 0.0
  is_charging := false
  is_discharging := false
  health_status := 0
  error_code := 0
  error_message := List.replicate 256 0
  timestamp := 0

/-- A `rand()` that always returns 0. -/
def rand0 : Nat → Nat := fun _ => 0

/-- The manager of a process that has called nothing yet. -/
def exFresh : G1SDKManager := G1SDKManager.getInstance rand0

/-- After `g1_sdk_init(nullptr)`. -/
def exInitialized : G1SDKManager := (run exFresh [.g1_sdk_init none]).1

/-- After `g1_sdk_init`, `g1_sdk_connect`: connected, and the thread has not completed an
iteration. -/
def exConnected : G1SDKManager :=
  (run exFresh [.g1_sdk_init none, .g1_sdk_connect .started []]).1

/-- After `g1_sdk_init`, `g1_sdk_connect`, one acquisition cycle at clock reading 1000. -/
def exSampled : G1SDKManager :=
  (run exFresh [.g1_sdk_init none, .g1_sdk_connect .started [], .cycle 1000 zeroStatus]).1

/-- After `g1_sdk_init`, `g1_sdk_connect`, one acquisition cycle, `g1_sdk_cleanup`. -/
def exCleaned : G1SDKManager :=
  (run exFresh [.g1_sdk_init none, .g1_sdk_connect .started [], .cycle 1000 zeroStatus,
    .g1_sdk_cleanup]).1

/-- After `g1_sdk_init`, `g1_sdk_connect`, `g1_sdk_set_battery_callback(1)`: connected, with a
subscriber, before the first cycle. -/
def exSubscribed : G1SDKManager :=
  (run exFresh [.g1_sdk_init none, .g1_sdk_connect .started [],
    .g1_sdk_set_battery_callback (some 1)]).1

/-- A connected manager whose stored message is 300 bytes `'A'`. -/
def exLongMessage : G1SDKManager :=
  { exSampled with
    latest_bms_data_ := { exSampled.latest_bms_data_ with error_message := List.replicate 300 65 } }

/-- Initialise, connect, a cycle at clock reading 1700000002000, a read, a cycle at clock
reading 1700000001000 (the system clock was set back by a second), a read. -/
def exClockSetBack : List Event :=
  [.g1_sdk_init none, .g1_sdk_connect .started [], .cycle 1700000002000 zeroStatus,
    .g1_sdk_get_battery_status (some zeroStatus), .cycle 1700000001000 zeroStatus,
    .g1_sdk_get_battery_status (some zeroStatus)]

/-- Initialise, subscribe, connect, a cycle, a read, disconnect, connect again, a read before
the new thread has run, a cycle, a read. -/
def exReconnect : List Event :=
  [.g1_sdk_init none, .g1_sdk_set_battery_callback (some 1), .g1_sdk_connect .started [],
    .cycle 1000 zeroStatus, .g1_sdk_get_battery_status (some zeroStatus), .g1_sdk_disconnect,
    .g1_sdk_connect .started [], .g1_sdk_get_battery_status (some zeroStatus),
    .cycle 2000 zeroStatus, .g1_sdk_get_battery_status (some zeroStatus)]

/-- Initialise, subscribe, then a `connect()` whose new thread completes one iteration, at clock
reading 1000, before `connect()` reaches line 131. -/
def exEarlyCycle : List Event :=
  [.g1_sdk_init none, .g1_sdk_set_battery_callback (some 1),
    .g1_sdk_connect .started [(1000, zeroStatus)]]

/-! ## Lemmas on texts and copy loops -/

theorem c_str_no_nul (s : List UInt8) : ∀ b ∈ c_str s, b ≠ 0 := by
  intro b hb
  have h := List.mem_takeWhile_imp hb
  simpa using h

theorem c_str_eq_self {s : List UInt8} (h : ∀ b ∈ s, b ≠ 0) : c_str s = s := by
  unfold c_str
  rw [List.takeWhile_eq_self_iff]
  intro b hb
  simpa using h b hb

theorem c_str_append_nul (body rest : List UInt8) (h : ∀ b ∈ body, b ≠ 0) :
    c_str (body ++ 0 :: rest) = body := by
  unfold c_str
  induction body with
  | nil => simp
  | cons a as ih =>
    have ha : a ≠ 0 := h a (List.mem_cons_self _ _)
    have has : ∀ b ∈ as, b ≠ 0 := fun b hb => h b (List.mem_cons_of_mem _ hb)
    simp [ha, ih has]

/-- The buffer after `strncpy(dest, src, m); dest[m] = 0`, spelled out. -/
theorem strncpy_set_eq (dest src : List UInt8) (m : Nat) (hm : m < dest.length) :
    (strncpy dest src m).set m 0 =
      (c_str src).take m ++ (List.replicate (m - ((c_str src).take m).length) 0 ++
        0 :: dest.drop (m + 1)) := by
  unfold strncpy
  have hlen : ((c_str src).take m).length ≤ m := by simp
  generalize (c_str src).take m = body at hlen
  have hdrop : dest.drop m = dest.get ⟨m, hm⟩ :: dest.drop (m + 1) := by
    simp
  have hl : (body ++ List.replicate (m - body.length) 0).length = m := by
    simp; omega
  rw [hdrop, List.set_append_right _ _ (by omega), hl, Nat.sub_self, List.set_cons_zero,
    List.append_assoc]

theorem strncpy_set_length (dest src : List UInt8) (m : Nat) (hm : m < dest.length) :
    ((strncpy dest src m).set m 0).length = dest.length := by
  rw [strncpy_set_eq dest src m hm]
  have hlen : ((c_str src).take m).length ≤ m := by simp
  simp only [List.length_append, List.length_replicate, List.length_cons, List.length_drop]
  omega

theorem strncpy_set_c_str (dest src : List UInt8) (m : Nat) (hm : m < dest.length) :
    c_str ((strncpy dest src m).set m 0) = (c_str src).take m := by
  rw [strncpy_set_eq dest src m hm]
  have hbody : ∀ b ∈ (c_str src).take m, b ≠ 0 :=
    fun b hb => c_str_no_nul src b (List.mem_of_mem_take hb)
  cases hk : m - ((c_str src).take m).length with
  | zero => simpa using c_str_append_nul _ _ hbody
  | succ k =>
    rw [List.replicate_succ, List.cons_append]
    exact c_str_append_nul _ _ hbody

theorem strncpy_set_get (dest src : List UInt8) (m : Nat) (hm : m < dest.length) :
    ((strncpy dest src m).set m 0)[m]? = some 0 := by
  have h : m < (strncpy dest src m).length := by
    unfold strncpy
    simp only [List.length_append, List.length_replicate, List.length_drop]
    omega
  simp [List.getElem?_set, h]

/-- A buffer longer than its text holds a NUL right after the text. -/
theorem c_str_terminator (x : List UInt8) (h : strlen x < x.length) :
    x[strlen x]? = some 0 := by
  unfold strlen c_str at *
  induction x with
  | nil => simp at h
  | cons a as ih =>
    by_cases ha : a = 0
    · subst ha; simp
    · have e : List.takeWhile (fun b => b != 0) (a :: as)
          = a :: List.takeWhile (fun b => b != 0) as := by simp [ha]
      rw [e] at h ⊢
      simp only [List.length_cons, Nat.add_lt_add_iff_right] at h
      simpa using ih h

theorem strncpy_set_strlen (dest src : List UInt8) (m : Nat) (hm : m < dest.length) :
    strlen ((strncpy dest src m).set m 0) = min (strlen src) m := by
  unfold strlen
  rw [strncpy_set_c_str dest src m hm, List.length_take, Nat.min_comm]

theorem strncpy_set_terminated (dest src : List UInt8) (m : Nat) (hm : m < dest.length) :
    ((strncpy dest src m).set m 0)[min (strlen src) m]? = some 0 := by
  rw [← strncpy_set_strlen dest src m hm]
  apply c_str_terminator
  rw [strncpy_set_strlen dest src m hm, strncpy_set_length dest src m hm]
  exact lt_of_le_of_lt (Nat.min_le_right _ _) hm

/-- The copy loop entered at index `i` with `k` indices left writes `src[i .. i+k)` (as far as
`src` reaches) over the same indices of `dst` and nothing else. -/
theorem copyLoop_eq {α : Type} (src : List α) :
    ∀ (k i : Nat) (dst : List α), i + k ≤ dst.length →
      copyLoop src k i dst =
        dst.take i ++ (src.drop i).take k ++ dst.drop (i + min k (src.length - i)) := by
  intro k
  induction k with
  | zero => intro i dst _; simp [copyLoop]
  | succ k ih =>
    intro i dst hlen
    unfold copyLoop
    split
    · rename_i h
      rw [ih (i + 1) _ (by simp; omega)]
      have hi : i < dst.length := by omega
      have h1 : (dst.set i (src.get ⟨i, h⟩)).take (i + 1) = dst.take i ++ [src.get ⟨i, h⟩] := by
        rw [List.set_eq_take_append_cons_drop, if_pos hi]
        have e : dst.take i ++ src.get ⟨i, h⟩ :: dst.drop (i + 1)
            = (dst.take i ++ [src.get ⟨i, h⟩]) ++ dst.drop (i + 1) := by simp
        rw [e, List.take_left']
        simp; omega
      have h2 : src.drop i = src.get ⟨i, h⟩ :: src.drop (i + 1) := by simp
      have h3 : (dst.set i (src.get ⟨i, h⟩)).drop (i + 1 + min k (src.length - (i + 1)))
          = dst.drop (i + min (k + 1) (src.length - i)) := by
        rw [List.drop_set_of_lt _ _ (by omega)]
        congr 1
        omega
      rw [h1, h3, h2, List.take_succ_cons]
      simp
    · rename_i h
      have : src.drop i = [] := List.drop_eq_nil_of_le (by omega)
      simp [this]
      have : src.length - i = 0 := by omega
      simp [this]

/-- A source of exactly `n` entries overwrites a buffer of `n` entries completely. -/
theorem copyLoop_full {α : Type} (src dst : List α) (n : Nat) (hs : src.length = n)
    (hd : dst.length = n) : copyLoop src n 0 dst = src := by
  rw [copyLoop_eq src n 0 dst (by omega)]
  subst hs
  simp [hd]

/-! ## The acquisition loop and the invariant -/

theorem ERR_NOT_INITIALIZED_no_nul : ∀ b ∈ ERR_NOT_INITIALIZED, b ≠ 0 := by decide

theorem ERR_CONNECT_FAILED_no_nul : ∀ b ∈ ERR_CONNECT_FAILED, b ≠ 0 := by decide

theorem ERR_NULL_STATUS_no_nul : ∀ b ∈ ERR_NULL_STATUS, b ≠ 0 := by decide

theorem ERR_NOT_CONNECTED_no_nul : ∀ b ∈ ERR_NOT_CONNECTED, b ≠ 0 := by decide

theorem Frame.refl (s : G1SDKManager) : Frame s s :=
  ⟨rfl, rfl, rfl, rfl, rfl, rfl, rfl, rfl, rfl, fun h => h⟩

theorem Frame.trans {a b c : G1SDKManager} (h1 : Frame a b) (h2 : Frame b c) : Frame a c :=
  ⟨h2.initialized.trans h1.initialized, h2.connected.trans h1.connected,
    h2.thread.trans h1.thread, h2.running.trans h1.running, h2.alive.trans h1.alive,
    h2.callback.trans h1.callback, h2.cells.trans h1.cells, h2.temps.trans h1.temps,
    h2.message.trans h1.message, fun h => h2.error_text (h1.error_text h)⟩

theorem getBatteryStatus_not_connected (s : G1SDKManager) (st : G1BatteryStatus)
    (hc : s.connected_ = false) :
    s.getBatteryStatus (some st) = (-1, { s with last_error_ := ERR_NOT_CONNECTED }, some st) := by
  simp [G1SDKManager.getBatteryStatus, hc]

theorem getBatteryStatus_connected (s : G1SDKManager) (st : G1BatteryStatus)
    (hc : s.connected_ = true) :
    s.getBatteryStatus (some st) = (0, s, some (convert s.latest_bms_data_ st)) := by
  simp [G1SDKManager.getBatteryStatus, hc]

theorem getBatteryStatus_ok_connected (s : G1SDKManager) (st : G1BatteryStatus)
    (h0 : (s.getBatteryStatus (some st)).1 = 0) : s.connected_ = true := by
  rcases Bool.eq_false_or_eq_true s.connected_ with hc | hc
  · exact hc
  · rw [getBatteryStatus_not_connected s st hc] at h0
    simp at h0

theorem iteration_no_callback (s : G1SDKManager) (now : Int) (status : G1BatteryStatus)
    (h : s.callback_ = none) :
    s.dataReceiveLoop_iteration now status = (s.updateSimulatedData now, []) := by
  have h1 : (s.updateSimulatedData now).callback_ = none := h
  simp [G1SDKManager.dataReceiveLoop_iteration, h1]

theorem iteration_not_connected (s : G1SDKManager) (now : Int) (status : G1BatteryStatus)
    (f : BatteryStatusCallback) (h : s.callback_ = some f) (hc : s.connected_ = false) :
    s.dataReceiveLoop_iteration now status =
      ({ s.updateSimulatedData now with last_error_ := ERR_NOT_CONNECTED }, []) := by
  have h1 : (s.updateSimulatedData now).callback_ = some f := h
  have h2 : (s.updateSimulatedData now).connected_ = false := hc
  simp [G1SDKManager.dataReceiveLoop_iteration, h1, getBatteryStatus_not_connected _ _ h2]

theorem iteration_connected (s : G1SDKManager) (now : Int) (status : G1BatteryStatus)
    (f : BatteryStatusCallback) (h : s.callback_ = some f) (hc : s.connected_ = true) :
    s.dataReceiveLoop_iteration now status =
      (s.updateSimulatedData now,
        [(f, convert (s.updateSimulatedData now).latest_bms_data_ status)]) := by
  have h1 : (s.updateSimulatedData now).callback_ = some f := h
  have h2 : (s.updateSimulatedData now).connected_ = true := hc
  simp [G1SDKManager.dataReceiveLoop_iteration, h1, getBatteryStatus_connected _ _ h2]

theorem update_frame (s : G1SDKManager) (now : Int) : Frame s (s.updateSimulatedData now) := by
  constructor <;> simp [G1SDKManager.updateSimulatedData]

theorem iteration_frame (s : G1SDKManager) (now : Int) (status : G1BatteryStatus) :
    Frame s (s.dataReceiveLoop_iteration now status).1 := by
  rcases hcb : s.callback_ with _ | f
  · rw [iteration_no_callback s now status hcb]
    exact update_frame s now
  · rcases Bool.eq_false_or_eq_true s.connected_ with hc | hc
    · rw [iteration_connected s now status f hcb hc]
      exact update_frame s now
    · rw [iteration_not_connected s now status f hcb hc]
      exact { update_frame s now with error_text := fun _ => ERR_NOT_CONNECTED_no_nul }

theorem loop_frame (inputs : List (Int × G1BatteryStatus)) :
    ∀ s : G1SDKManager, Frame s (s.dataReceiveLoop inputs).1 := by
  induction inputs with
  | nil => intro s; exact Frame.refl s
  | cons x rest ih =>
    intro s
    obtain ⟨now, status⟩ := x
    unfold G1SDKManager.dataReceiveLoop
    split
    · exact (iteration_frame s now status).trans (ih _)
    · exact Frame.refl s

theorem Inv.of_frame {s r : G1SDKManager} (h : Inv s) (f : Frame s r) : Inv r where
  thread := by rw [f.thread, f.connected]; exact h.thread
  alive := by rw [f.alive, f.connected]; exact h.alive
  init := by rw [f.initialized, f.connected]; exact h.init
  running := by rw [f.running, f.connected]; exact h.running
  cells := by rw [f.cells]; exact h.cells
  temps := by rw [f.temps]; exact h.temps
  message := by rw [f.message]; exact h.message
  error_text := f.error_text h.error_text

theorem getInstance_inv (rand : Nat → Nat) : Inv (G1SDKManager.getInstance rand) := by
  constructor <;> simp [G1SDKManager.getInstance, BmsState.ctor]

theorem connect_of_not_initialized (s : G1SDKManager) (ts : ThreadStart)
    (early : List (Int × G1BatteryStatus)) (hi : s.initialized_ = false) :
    s.connect ts early = (-1, { s with last_error_ := ERR_NOT_INITIALIZED }, []) := by
  simp [G1SDKManager.connect, hi]

theorem connect_of_connected (s : G1SDKManager) (ts : ThreadStart)
    (early : List (Int × G1BatteryStatus)) (hi : s.initialized_ = true)
    (hc : s.connected_ = true) : s.connect ts early = (0, s, []) := by
  simp [G1SDKManager.connect, hi, hc]

theorem connect_started (s : G1SDKManager) (early : List (Int × G1BatteryStatus))
    (hi : s.initialized_ = true) (hc : s.connected_ = false) :
    s.connect .started early =
      (0, (s.connect_spawn.dataReceiveLoop early).1.connect_finish,
        (s.connect_spawn.dataReceiveLoop early).2) := by
  simp [G1SDKManager.connect, hi, hc]

theorem connect_throws (s : G1SDKManager) (what : List UInt8)
    (early : List (Int × G1BatteryStatus)) (hi : s.initialized_ = true)
    (hc : s.connected_ = false) :
    s.connect (.throws what) early =
      (-1, { s with running_ := true, last_error_ := ERR_CONNECT_FAILED ++ c_str what }, []) := by
  simp [G1SDKManager.connect, hi, hc]

theorem connect_inv (s : G1SDKManager) (ts : ThreadStart) (early : List (Int × G1BatteryStatus))
    (h : Inv s) : Inv (s.connect ts early).2.1 := by
  rcases Bool.eq_false_or_eq_true s.initialized_ with hi | hi
  swap
  · rw [connect_of_not_initialized s ts early hi]
    exact { h with error_text := ERR_NOT_INITIALIZED_no_nul }
  · rcases Bool.eq_false_or_eq_true s.connected_ with hc | hc
    swap
    · cases ts with
      | started =>
        rw [connect_started s early hi hc]
        have f := loop_frame early s.connect_spawn
        constructor
        · show (s.connect_spawn.dataReceiveLoop early).1.data_thread_ = true
          rw [f.thread]; rfl
        · show (s.connect_spawn.dataReceiveLoop early).1.threads_alive = 1
          rw [f.alive]
          show s.threads_alive + 1 = 1
          rw [h.alive, hc]; rfl
        · intro _
          show (s.connect_spawn.dataReceiveLoop early).1.initialized_ = true
          rw [f.initialized]; exact hi
        · intro _
          show (s.connect_spawn.dataReceiveLoop early).1.running_ = true
          rw [f.running]; rfl
        · show (s.connect_spawn.dataReceiveLoop early).1.latest_bms_data_.cell_voltages.length = 40
          rw [f.cells]; exact h.cells
        · show (s.connect_spawn.dataReceiveLoop early).1.latest_bms_data_.temperatures.length = 12
          rw [f.temps]; exact h.temps
        · show (s.connect_spawn.dataReceiveLoop early).1.latest_bms_data_.error_message = []
          rw [f.message]; exact h.message
        · exact f.error_text h.error_text
      | throws what =>
        rw [connect_throws s what early hi hc]
        constructor
        · exact h.thread
        · exact h.alive
        · intro hc2; exact absurd (hc.symm.trans hc2) (by decide)
        · intro _; rfl
        · exact h.cells
        · exact h.temps
        · exact h.message
        · intro b hb
          rcases List.mem_append.mp hb with hb | hb
          · exact ERR_CONNECT_FAILED_no_nul b hb
          · exact c_str_no_nul what b hb
    · rw [connect_of_connected s ts early hi hc]
      exact h

theorem disconnect_of_not_connected (s : G1SDKManager) (hc : s.connected_ = false) :
    s.disconnect = (0, s) := by
  simp [G1SDKManager.disconnect, hc]

theorem disconnect_of_connected (s : G1SDKManager) (hc : s.connected_ = true)
    (ht : s.data_thread_ = true) :
    s.disconnect =
      (0, { s with
        running_ := false
        threads_alive := s.threads_alive - 1
        data_thread_ := false
        connected_ := false }) := by
  simp [G1SDKManager.disconnect, hc, ht]

theorem disconnect_of_connected_flags (s : G1SDKManager) (hc : s.connected_ = true) :
    s.disconnect.2.connected_ = false := by
  simp [G1SDKManager.disconnect, hc]

theorem disconnect_inv (s : G1SDKManager) (h : Inv s) : Inv s.disconnect.2 := by
  rcases Bool.eq_false_or_eq_true s.connected_ with hc | hc
  swap
  · rw [disconnect_of_not_connected s hc]; exact h
  · rw [disconnect_of_connected s hc (h.thread.trans hc)]
    constructor
    · rfl
    · show s.threads_alive - 1 = 0
      rw [h.alive, hc]; rfl
    · intro hf; exact absurd hf Bool.false_ne_true
    · intro hf; exact absurd hf Bool.false_ne_true
    · exact h.cells
    · exact h.temps
    · exact h.message
    · exact h.error_text

theorem disconnect_connected_false (s : G1SDKManager) : s.disconnect.2.connected_ = false := by
  rcases Bool.eq_false_or_eq_true s.connected_ with hc | hc
  · rw [disconnect_of_connected_flags s hc]
  · rw [disconnect_of_not_connected s hc]; exact hc

theorem step_inv (s : G1SDKManager) (e : Event) (h : Inv s) : Inv (step s e).1 := by
  cases e with
  | g1_sdk_init config_path =>
    simp only [step, G1SDKManager.initialize]
    split
    · exact h
    · exact { h with init := fun _ => rfl }
  | g1_sdk_cleanup =>
    simp only [step, G1SDKManager.cleanup]
    split
    · exact h
    · have hd := disconnect_inv s h
      have hc : s.disconnect.2.connected_ = false := disconnect_connected_false s
      exact { hd with
        init := fun hf => absurd (hc.symm.trans hf) (by decide)
        running := hd.running }
  | g1_sdk_connect ts early => exact connect_inv s ts early h
  | g1_sdk_disconnect => exact disconnect_inv s h
  | g1_sdk_is_connected => exact h
  | g1_sdk_get_battery_status status =>
    simp only [step]
    cases status with
    | none => exact { h with error_text := ERR_NULL_STATUS_no_nul }
    | some st =>
      rcases Bool.eq_false_or_eq_true s.connected_ with hc | hc
      · rw [getBatteryStatus_connected s st hc]; exact h
      · rw [getBatteryStatus_not_connected s st hc]
        exact { h with error_text := ERR_NOT_CONNECTED_no_nul }
  | g1_sdk_get_last_error buffer buffer_size => exact h
  | g1_sdk_set_battery_callback callback => exact { h with }
  | cycle now status =>
    simp only [step]
    split
    · exact h.of_frame (iteration_frame s now status)
    · exact h

theorem run_inv (es : List Event) : ∀ s : G1SDKManager, Inv s → Inv (run s es).1 := by
  induction es with
  | nil => intro s h; exact h
  | cons e es ih => intro s h; exact ih _ (step_inv s e h)

theorem Reachable.inv {s : G1SDKManager} (h : Reachable s) : Inv s := by
  obtain ⟨rand, es, rfl⟩ := h
  exact run_inv es _ (getInstance_inv rand)

theorem Reachable.step {s : G1SDKManager} (h : Reachable s) (e : Event) :
    Reachable (G1SDK.step s e).1 := by
  obtain ⟨rand, es, rfl⟩ := h
  refine ⟨rand, es ++ [e], ?_⟩
  have key : ∀ (es : List Event) (s0 : G1SDKManager),
      (run s0 (es ++ [e])).1 = (G1SDK.step (run s0 es).1 e).1 := by
    intro es
    induction es with
    | nil => intro s0; rfl
    | cons x xs ih => intro s0; simp only [List.cons_append, run]; exact ih _
  exact (key es _).symm

theorem Reachable.run {s : G1SDKManager} (h : Reachable s) (es : List Event) :
    Reachable (G1SDK.run s es).1 := by
  induction es generalizing s with
  | nil => exact h
  | cons e es ih => exact ih (h.step e)

theorem Reachable.getInstance (rand : Nat → Nat) : Reachable (G1SDKManager.getInstance rand) :=
  ⟨rand, [], rfl⟩

theorem connect_ok_flags (s : G1SDKManager) (ts : ThreadStart)
    (early : List (Int × G1BatteryStatus)) (h0 : (s.connect ts early).1 = 0) :
    (s.connect ts early).2.1.initialized_ = true ∧ (s.connect ts early).2.1.connected_ = true := by
  rcases Bool.eq_false_or_eq_true s.initialized_ with hi | hi
  swap
  · rw [connect_of_not_initialized s ts early hi] at h0
    simp at h0
  · rcases Bool.eq_false_or_eq_true s.connected_ with hc | hc
    · rw [connect_of_connected s ts early hi hc]; exact ⟨hi, hc⟩
    · cases ts with
      | started =>
        rw [connect_started s early hi hc]
        refine ⟨?_, rfl⟩
        show (s.connect_spawn.dataReceiveLoop early).1.initialized_ = true
        rw [(loop_frame early s.connect_spawn).initialized]; exact hi
      | throws what =>
        rw [connect_throws s what early hi hc] at h0
        simp at h0

/-! ## Timestamps along a run -/

theorem toUInt64_eq (now : Int) (h0 : 0 ≤ now) (h1 : now < 2 ^ 64) : toUInt64 now = now.toNat := by
  unfold toUInt64
  rw [Int.emod_eq_of_lt h0 h1]

theorem seg_nil (t : Nat) : Seg t [] [] t :=
  ⟨List.Pairwise.nil, by simp, le_refl _, fun _ h _ => h⟩

theorem seg_single (t : Nat) : Seg t [] [t] t :=
  ⟨List.pairwise_singleton _ _, by simp, le_refl _, fun _ h _ => h⟩

theorem monoFrom_left {t0 : Nat} {R1 R2 : List Int} (h : MonoFrom t0 (R1 ++ R2)) :
    MonoFrom t0 R1 :=
  ⟨(List.pairwise_append.mp h.1).1, fun r hr => h.2 r (List.mem_append_left _ hr)⟩

theorem seg_append {t0 t1 t2 : Nat} {R1 R2 : List Int} {O1 O2 : List Nat}
    (hm : MonoFrom t0 (R1 ++ R2)) (h1 : Seg t0 R1 O1 t1)
    (h2 : MonoFrom t1 R2 → Seg t1 R2 O2 t2) : Seg t0 (R1 ++ R2) (O1 ++ O2) t2 := by
  obtain ⟨hp, hr⟩ := hm
  obtain ⟨hp1, hp2, hcross⟩ := List.pairwise_append.mp hp
  have hm2 : MonoFrom t1 R2 := by
    refine ⟨hp2, fun r hr2 => ?_⟩
    obtain ⟨h0, hlt, hge⟩ := hr r (List.mem_append_right _ hr2)
    refine ⟨h0, hlt, h1.2.2.2 r.toNat hge (fun r1 hr1 => ?_)⟩
    exact Int.toNat_le_toNat (hcross r1 hr1 r hr2)
  obtain ⟨a1, b1, c1, d1⟩ := h1
  obtain ⟨a2, b2, c2, d2⟩ := h2 hm2
  refine ⟨List.pairwise_append.mpr ⟨a1, a2, fun x hx y hy => ?_⟩, fun o ho => ?_,
    le_trans c1 c2, fun B hB hR => ?_⟩
  · exact le_trans (b1 x hx).2 (b2 y hy).1
  · rcases List.mem_append.mp ho with ho | ho
    · exact ⟨(b1 o ho).1, le_trans (b1 o ho).2 c2⟩
    · exact ⟨le_trans c1 (b2 o ho).1, (b2 o ho).2⟩
  · exact d2 B (d1 B hB (fun r hr1 => hR r (List.mem_append_left _ hr1)))
      (fun r hr2 => hR r (List.mem_append_right _ hr2))

theorem iteration_seg (s : G1SDKManager) (now : Int) (status : G1BatteryStatus)
    (hm : MonoFrom s.latest_bms_data_.timestamp [now]) :
    Seg s.latest_bms_data_.timestamp [now]
      ((pushedAll (s.dataReceiveLoop_iteration now status).2).map Obs.timestamp)
      (s.dataReceiveLoop_iteration now status).1.latest_bms_data_.timestamp := by
  obtain ⟨h0, hlt, hge⟩ := hm.2 now (List.mem_singleton_self _)
  have e := toUInt64_eq now h0 hlt
  have base : Seg s.latest_bms_data_.timestamp [now] [] (toUInt64 now) :=
    ⟨List.Pairwise.nil, by simp, by rw [e]; exact hge,
      fun B _ hR => by rw [e]; exact hR now (List.mem_singleton_self _)⟩
  have one : Seg s.latest_bms_data_.timestamp [now] [toUInt64 now] (toUInt64 now) :=
    ⟨List.pairwise_singleton _ _, by simp [e, hge], by rw [e]; exact hge,
      fun B _ hR => by rw [e]; exact hR now (List.mem_singleton_self _)⟩
  rcases hcb : s.callback_ with _ | f
  · rw [iteration_no_callback s now status hcb]
    exact base
  · rcases Bool.eq_false_or_eq_true s.connected_ with hc | hc
    · rw [iteration_connected s now status f hcb hc]
      exact one
    · rw [iteration_not_connected s now status f hcb hc]
      exact base

theorem loop_seg (inputs : List (Int × G1BatteryStatus)) :
    ∀ s : G1SDKManager, s.running_ = true →
      MonoFrom s.latest_bms_data_.timestamp (inputs.map (fun e => e.1)) →
      Seg s.latest_bms_data_.timestamp (inputs.map (fun e => e.1))
        ((pushedAll (s.dataReceiveLoop inputs).2).map Obs.timestamp)
        (s.dataReceiveLoop inputs).1.latest_bms_data_.timestamp := by
  induction inputs with
  | nil => intro s _ _; exact seg_nil _
  | cons x rest ih =>
    intro s hrun hm
    obtain ⟨now, status⟩ := x
    have e : s.dataReceiveLoop ((now, status) :: rest) =
        ((G1SDKManager.dataReceiveLoop (s.dataReceiveLoop_iteration now status).1 rest).1,
          (s.dataReceiveLoop_iteration now status).2 ++
            (G1SDKManager.dataReceiveLoop (s.dataReceiveLoop_iteration now status).1 rest).2) := by
      simp [G1SDKManager.dataReceiveLoop, hrun]
    rw [e]
    have hrun2 : (s.dataReceiveLoop_iteration now status).1.running_ = true :=
      (iteration_frame s now status).running.trans hrun
    have hm2 : MonoFrom s.latest_bms_data_.timestamp ([now] ++ rest.map (fun e => e.1)) := hm
    have := seg_append hm2 (iteration_seg s now status (monoFrom_left hm2)) (ih _ hrun2)
    simpa [pushedAll] using this

theorem initialize_latest (s : G1SDKManager) (config_path : Option (List UInt8)) :
    ( G1SDKManager.initialize s config_path).2.latest_bms_data_ = s.latest_bms_data_ := by
  unfold G1SDKManager.initialize
  split <;> rfl

theorem disconnect_latest (s : G1SDKManager) :
    s.disconnect.2.latest_bms_data_ = s.latest_bms_data_ := by
  rcases Bool.eq_false_or_eq_true s.connected_ with hc | hc
  · rcases Bool.eq_false_or_eq_true s.data_thread_ with ht | ht <;>
      simp [G1SDKManager.disconnect, hc, ht]
  · rw [disconnect_of_not_connected s hc]

theorem cleanup_of_not_initialized (s : G1SDKManager) (hi : s.initialized_ = false) :
    s.cleanup = s := by
  simp [G1SDKManager.cleanup, hi]

theorem cleanup_latest (s : G1SDKManager) : s.cleanup.latest_bms_data_ = s.latest_bms_data_ := by
  unfold G1SDKManager.cleanup
  split
  · rfl
  · exact disconnect_latest s

theorem step_seg (s : G1SDKManager) (e : Event)
    (hm : MonoFrom s.latest_bms_data_.timestamp (e.clock s)) :
    Seg s.latest_bms_data_.timestamp (e.clock s) ((step s e).2.map Obs.timestamp)
      (step s e).1.latest_bms_data_.timestamp := by
  cases e with
  | g1_sdk_init config_path =>
    show Seg _ [] [] ( G1SDKManager.initialize s config_path).2.latest_bms_data_.timestamp
    rw [initialize_latest]; exact seg_nil _
  | g1_sdk_cleanup =>
    show Seg _ [] [] s.cleanup.latest_bms_data_.timestamp
    rw [cleanup_latest]; exact seg_nil _
  | g1_sdk_connect ts early =>
    show Seg _ _ ((pushedAll (s.connect ts early).2.2).map Obs.timestamp)
      (s.connect ts early).2.1.latest_bms_data_.timestamp
    rcases Bool.eq_false_or_eq_true s.initialized_ with hi | hi
    swap
    · rw [connect_of_not_initialized s ts early hi]
      have : Event.clock s (.g1_sdk_connect ts early) = [] := by
        cases ts <;> simp [Event.clock, hi]
      rw [this]; exact seg_nil _
    · rcases Bool.eq_false_or_eq_true s.connected_ with hc | hc
      · rw [connect_of_connected s ts early hi hc]
        have : Event.clock s (.g1_sdk_connect ts early) = [] := by
          cases ts <;> simp [Event.clock, hc]
        rw [this]; exact seg_nil _
      · cases ts with
        | started =>
          have hclk : Event.clock s (.g1_sdk_connect .started early)
              = early.map (fun e => e.1) := by
            simp [Event.clock, hi, hc]
          rw [hclk] at hm ⊢
          rw [connect_started s early hi hc]
          exact loop_seg early s.connect_spawn rfl hm
        | throws what =>
          rw [connect_throws s what early hi hc]
          exact seg_nil _
  | g1_sdk_disconnect =>
    show Seg _ [] [] s.disconnect.2.latest_bms_data_.timestamp
    rw [disconnect_latest]; exact seg_nil _
  | g1_sdk_is_connected => exact seg_nil _
  | g1_sdk_get_battery_status status =>
    cases status with
    | none => exact seg_nil _
    | some st =>
      rcases Bool.eq_false_or_eq_true s.connected_ with hc | hc
      · have e : step s (.g1_sdk_get_battery_status (some st)) =
            (s, [Obs.polled (convert s.latest_bms_data_ st)]) := by
          simp [step, getBatteryStatus_connected s st hc]
        rw [e]; exact seg_single _
      · have e : step s (.g1_sdk_get_battery_status (some st)) =
            ({ s with last_error_ := ERR_NOT_CONNECTED }, []) := by
          simp [step, getBatteryStatus_not_connected s st hc]
        rw [e]; exact seg_nil _
  | g1_sdk_get_last_error buffer buffer_size => exact seg_nil _
  | g1_sdk_set_battery_callback callback => exact seg_nil _
  | cycle now status =>
    by_cases hen : (s.data_thread_ && s.running_) = true
    · have hclk : Event.clock s (.cycle now status) = [now] := by simp [Event.clock, hen]
      have e : step s (.cycle now status) = ((s.dataReceiveLoop_iteration now status).1,
          pushedAll (s.dataReceiveLoop_iteration now status).2) := by
        simp only [step, hen, if_true]
      rw [hclk] at hm ⊢
      rw [e]
      exact iteration_seg s now status hm
    · have hclk : Event.clock s (.cycle now status) = [] := by simp [Event.clock, hen]
      have e : step s (.cycle now status) = (s, []) := by
        simp only [step, hen]; rfl
      rw [hclk, e]; exact seg_nil _

theorem run_seg (es : List Event) :
    ∀ s : G1SDKManager, MonoFrom s.latest_bms_data_.timestamp (clockReadings s es) →
      Seg s.latest_bms_data_.timestamp (clockReadings s es) (observedTimestamps s es)
        (run s es).1.latest_bms_data_.timestamp := by
  induction es with
  | nil => intro s _; exact seg_nil _
  | cons e es ih =>
    intro s hm
    have hm2 : MonoFrom s.latest_bms_data_.timestamp
        (e.clock s ++ clockReadings (step s e).1 es) := hm
    have := seg_append hm2 (step_seg s e (monoFrom_left hm2)) (ih (step s e).1)
    simpa [observedTimestamps, run, clockReadings] using this

/-! ## The claims -/

/-- C1: in every manager state with `initialized_` false, `connect()` returns -1, records the
not-initialized text as the last error and changes nothing else: the manager is still not
initialised, the subscriber is not called, `connected_`, `running_`, the thread and the number
of live acquisition threads are as before; and in every such state the program can reach
(never initialised, or cleaned up since) the manager is not connected and has no acquisition
thread, before and after the call. -/
theorem connect_not_initialized (s : G1SDKManager) (ts : ThreadStart)
    (early : List (Int × G1BatteryStatus)) (hi : s.initialized_ = false) :
    (s.connect ts early).1 = -1 ∧
    (s.connect ts early).2.1 = { s with last_error_ := ERR_NOT_INITIALIZED } ∧
    (s.connect ts early).2.2 = [] ∧
    (s.connect ts early).2.1.initialized_ = false ∧
    (s.connect ts early).2.1.connected_ = s.connected_ ∧
    (s.connect ts early).2.1.running_ = s.running_ ∧
    (s.connect ts early).2.1.data_thread_ = s.data_thread_ ∧
    (s.connect ts early).2.1.threads_alive = s.threads_alive ∧
    (Reachable s → (s.connect ts early).2.1.connected_ = false ∧
      (s.connect ts early).2.1.data_thread_ = false ∧
      (s.connect ts early).2.1.threads_alive = 0) := by
  rw [connect_of_not_initialized s ts early hi]
  refine ⟨rfl, rfl, rfl, hi, rfl, rfl, rfl, rfl, ?_⟩
  intro hr
  have inv := hr.inv
  have hc : s.connected_ = false := by
    rcases Bool.eq_false_or_eq_true s.connected_ with hc | hc
    · exact absurd (inv.init hc) (by rw [hi]; decide)
    · exact hc
  refine ⟨hc, inv.thread.trans hc, ?_⟩
  show s.threads_alive = 0
  rw [inv.alive, hc]; rfl

/-- C1, at the manager that was initialised, connected, refreshed once and cleaned up. -/
theorem connect_not_initialized_witness :
    exCleaned.initialized_ = false ∧ (exCleaned.connect .started []).1 = -1 ∧
      (exCleaned.connect .started []).2.1.last_error_ = ERR_NOT_INITIALIZED ∧
      (exCleaned.connect .started []).2.1.connected_ = false ∧
      (exCleaned.connect .started []).2.1.data_thread_ = false :=
  have h := connect_not_initialized exCleaned .started [] rfl
  have hr := h.2.2.2.2.2.2.2.2 ((Reachable.getInstance rand0).run _)
  ⟨rfl, h.1, by rw [h.2.1], hr.1, hr.2.1⟩

/-- C2 as stated fails: right after `connect()` returned, before the thread has completed any
iteration (`counter` is 0 and the stored timestamp is the constructor's 0),
`getBatteryStatus` with a non-null buffer returns 0. -/
theorem getBatteryStatus_before_first_cycle :
    exConnected.connected_ = true ∧ exConnected.counter = 0 ∧
      exConnected.latest_bms_data_.timestamp = 0 ∧
      (exConnected.getBatteryStatus (some zeroStatus)).1 = 0 :=
  ⟨rfl, rfl, rfl, rfl⟩

/-- C2, amended: with a non-null buffer `getBatteryStatus` returns -1 exactly when `connected_`
is false, and then records the not-connected text and leaves the buffer as it was; whenever
`connected_` is true it returns 0, whether or not a cycle has published a sample, leaves the
manager as it was and fills the buffer from the stored sample. -/
theorem getBatteryStatus_status (s : G1SDKManager) (st : G1BatteryStatus) :
    ((s.getBatteryStatus (some st)).1 = -1 ↔ s.connected_ = false) ∧
    ((s.getBatteryStatus (some st)).1 = 0 ↔ s.connected_ = true) ∧
    (s.connected_ = false →
      s.getBatteryStatus (some st) = (-1, { s with last_error_ := ERR_NOT_CONNECTED }, some st)) ∧
    (s.connected_ = true →
      s.getBatteryStatus (some st) = (0, s, some (convert s.latest_bms_data_ st))) := by
  rcases Bool.eq_false_or_eq_true s.connected_ with hc | hc
  · rw [getBatteryStatus_connected s st hc]
    simp [hc]
  · rw [getBatteryStatus_not_connected s st hc]
    simp [hc]

/-- C3: `disconnect()` returns 0 in every state; a manager that was not connected is left as it
was; a connected one has `running_` false, no thread and `isConnected()` false afterwards (and
no live acquisition thread, in every state the program can reach); in both cases a
`getBatteryStatus` called next returns -1 and leaves the caller's buffer as it was, recording
the not-connected text when the buffer is not null. -/
theorem disconnect_then_status (s : G1SDKManager) :
    s.disconnect.1 = 0 ∧
    (s.connected_ = false → s.disconnect.2 = s) ∧
    (s.connected_ = true → s.disconnect.2.running_ = false ∧
      s.disconnect.2.data_thread_ = false) ∧
    s.disconnect.2.isConnected = false ∧
    (Reachable s → s.disconnect.2.data_thread_ = false ∧ s.disconnect.2.threads_alive = 0) ∧
    (∀ status : Option G1BatteryStatus,
      (s.disconnect.2.getBatteryStatus status).1 = -1 ∧
      (s.disconnect.2.getBatteryStatus status).2.2 = status) ∧
    (∀ st : G1BatteryStatus,
      s.disconnect.2.getBatteryStatus (some st) =
        (-1, { s.disconnect.2 with last_error_ := ERR_NOT_CONNECTED }, some st)) := by
  have hd := disconnect_connected_false s
  refine ⟨?_, fun hc => by rw [disconnect_of_not_connected s hc], ?_, hd, ?_, ?_,
    fun st => getBatteryStatus_not_connected _ st hd⟩
  · unfold G1SDKManager.disconnect; split <;> rfl
  · intro hc
    rcases Bool.eq_false_or_eq_true s.data_thread_ with ht | ht <;>
      simp [G1SDKManager.disconnect, hc, ht]
  · intro hr
    have inv := disconnect_inv s hr.inv
    refine ⟨inv.thread.trans hd, ?_⟩
    rw [inv.alive, hd]; rfl
  · intro status
    cases status with
    | none => exact ⟨rfl, rfl⟩
    | some st => rw [getBatteryStatus_not_connected _ st hd]; exact ⟨rfl, rfl⟩

/-- C4: when `connect()` has returned 0, a second `connect()` with no `disconnect()` in between
returns 0, calls nothing and leaves the whole manager as the first call left it, the thread
and the number of live acquisition threads included; and in every state the program can reach,
that number is at most one after any further sequence of events, so after any sequence of
`connect()` calls. -/
theorem connect_idempotent (s : G1SDKManager) (ts ts2 : ThreadStart)
    (early early2 : List (Int × G1BatteryStatus)) (h0 : (s.connect ts early).1 = 0) :
    (s.connect ts early).2.1.connect ts2 early2 = (0, (s.connect ts early).2.1, []) ∧
    (Reachable s → (s.connect ts early).2.1.threads_alive = 1 ∧
      ∀ es : List Event, (run s es).1.threads_alive ≤ 1) := by
  have hf := connect_ok_flags s ts early h0
  refine ⟨connect_of_connected _ ts2 early2 hf.1 hf.2, fun hr => ⟨?_, fun es => ?_⟩⟩
  · have inv := connect_inv s ts early hr.inv
    rw [inv.alive, hf.2]; rfl
  · have inv := (hr.run es).inv
    rw [inv.alive]
    split <;> decide

/-- C4, at the first `connect()` of an initialised manager and a repeated one. -/
theorem connect_idempotent_witness :
    (exInitialized.connect .started []).1 = 0 ∧
      (exInitialized.connect .started []).2.1.connect .started [] =
        (0, (exInitialized.connect .started []).2.1, []) ∧
      (exInitialized.connect .started []).2.1.threads_alive = 1 :=
  have h := connect_idempotent exInitialized .started .started [] [] rfl
  ⟨rfl, h.1, (h.2 ((Reachable.getInstance rand0).run _)).1⟩

/-- C5: for every stored sample, with message `msg`, a successful `getBatteryStatus` on a caller
buffer whose `error_message` has its 256 bytes leaves exactly 256 bytes there (nothing is
written outside), a NUL at index 255, and as text exactly the first `min L 255` bytes of the
text of `msg`, where `L = strlen msg`, followed by a NUL at index `min L 255`. `L` is the length
of `msg` when `msg` holds no NUL byte; such a message longer than 255 bytes yields its first 255
bytes followed by the terminator at index 255. (In the states the program can reach the stored
message is the empty one of the constructor: no line assigns it.) -/
theorem error_message_truncated (s : G1SDKManager) (st : G1BatteryStatus)
    (hc : s.connected_ = true) (hst : st.error_message.length = 256) :
    ∃ out : G1BatteryStatus, s.getBatteryStatus (some st) = (0, s, some out) ∧
      out.error_message.length = 256 ∧
      out.error_message[255]? = some 0 ∧
      c_str out.error_message = (c_str s.latest_bms_data_.error_message).take 255 ∧
      strlen out.error_message = min (strlen s.latest_bms_data_.error_message) 255 ∧
      out.error_message[min (strlen s.latest_bms_data_.error_message) 255]? = some 0 ∧
      ((∀ b ∈ s.latest_bms_data_.error_message, b ≠ 0) →
        strlen s.latest_bms_data_.error_message = s.latest_bms_data_.error_message.length ∧
        c_str out.error_message = s.latest_bms_data_.error_message.take
          (min s.latest_bms_data_.error_message.length 255) ∧
        (255 < s.latest_bms_data_.error_message.length →
          out.error_message = s.latest_bms_data_.error_message.take 255 ++ [0])) ∧
      (Reachable s → s.latest_bms_data_.error_message = []) := by
  have hm : 255 < st.error_message.length := by omega
  refine ⟨convert s.latest_bms_data_ st, getBatteryStatus_connected s st hc, ?_, ?_, ?_, ?_, ?_,
    ?_, fun hr => hr.inv.message⟩
  · exact (strncpy_set_length _ _ 255 hm).trans hst
  · exact strncpy_set_get _ _ 255 hm
  · exact strncpy_set_c_str _ _ 255 hm
  · exact strncpy_set_strlen _ _ 255 hm
  · exact strncpy_set_terminated _ _ 255 hm
  · intro hnn
    have hself := c_str_eq_self hnn
    refine ⟨by unfold strlen; rw [hself], ?_, ?_⟩
    · show c_str ((strncpy _ _ 255).set 255 0) = _
      rw [strncpy_set_c_str _ _ 255 hm, hself]
      rcases Nat.le_total s.latest_bms_data_.error_message.length 255 with hle | hle
      · rw [Nat.min_eq_left hle, List.take_of_length_le hle, List.take_length]
      · rw [Nat.min_eq_right hle]
    · intro hlong
      show (strncpy _ _ 255).set 255 0 = _
      rw [strncpy_set_eq _ _ 255 hm, hself]
      have hl : (s.latest_bms_data_.error_message.take 255).length = 255 := by
        rw [List.length_take]; omega
      have hd : st.error_message.drop (255 + 1) = [] := List.drop_eq_nil_of_le (by omega)
      rw [hl, hd]
      simp

/-- C5, at a connected manager whose stored message is 300 bytes `'A'`: the buffer holds 255
bytes `'A'` and the terminator. -/
theorem error_message_truncated_witness :
    exLongMessage.connected_ = true ∧ zeroStatus.error_message.length = 256 ∧
    ∃ out : G1BatteryStatus,
      out.error_message.length = 256 ∧ out.error_message[255]? = some 0 ∧
      c_str out.error_message = List.replicate 255 65 :=
  have h := error_message_truncated exLongMessage zeroStatus rfl (List.length_replicate 256 0)
  have e : (c_str (List.replicate 300 65)).take 255 = List.replicate 255 65 := by
    rw [c_str_eq_self (fun b hb => by rw [List.eq_of_mem_replicate hb]; decide),
      List.take_replicate]
    rfl
  ⟨rfl, List.length_replicate 256 0, h.choose, h.choose_spec.2.1, h.choose_spec.2.2.1,
    h.choose_spec.2.2.2.1.trans e⟩

/-- C9: in every state the program can reach, the stored sample has exactly 40 cell voltages
and 12 temperatures, and so it has after any further event; a `getBatteryStatus` that returns 0
there leaves in the caller's structure the 40 stored cell voltages, the 12 stored temperatures
and every stored scalar, whatever the structure held before, and the structure keeps its array
lengths. -/
theorem getBatteryStatus_full_copy (s : G1SDKManager) (st : G1BatteryStatus)
    (hr : Reachable s) (hst : st.WellFormed) (h0 : (s.getBatteryStatus (some st)).1 = 0) :
    s.latest_bms_data_.cell_voltages.length = 40 ∧
    s.latest_bms_data_.temperatures.length = 12 ∧
    (∀ e : Event, (step s e).1.latest_bms_data_.cell_voltages.length = 40 ∧
      (step s e).1.latest_bms_data_.temperatures.length = 12) ∧
    ∃ out : G1BatteryStatus, (s.getBatteryStatus (some st)).2.2 = some out ∧
      out.cell_voltages = s.latest_bms_data_.cell_voltages ∧
      out.temperatures = s.latest_bms_data_.temperatures ∧
      out.voltage = s.latest_bms_data_.voltage ∧
      out.current = s.latest_bms_data_.current ∧
      out.temperature = s.latest_bms_data_.temperature ∧
      out.capacity = s.latest_bms_data_.capacity ∧
      out.cycle_count = s.latest_bms_data_.cycle_count ∧
      out.is_charging = s.latest_bms_data_.is_charging ∧
      out.is_discharging = s.latest_bms_data_.is_discharging ∧
      out.health_status = s.latest_bms_data_.health_status ∧
      out.error_code = s.latest_bms_data_.error_code ∧
      out.timestamp = s.latest_bms_data_.timestamp ∧
      out.WellFormed := by
  have inv := hr.inv
  have hc : s.connected_ = true := getBatteryStatus_ok_connected s st h0
  refine ⟨inv.cells, inv.temps, fun e => ⟨(hr.step e).inv.cells, (hr.step e).inv.temps⟩,
    convert s.latest_bms_data_ st, by rw [getBatteryStatus_connected s st hc], ?_, ?_,
    rfl, rfl, rfl, rfl, rfl, rfl, rfl, rfl, rfl, rfl, ?_⟩
  · exact copyLoop_full _ _ 40 inv.cells hst.1
  · exact copyLoop_full _ _ 12 inv.temps hst.2.1
  · refine ⟨?_, ?_, ?_⟩
    · show (copyLoop _ 40 0 _).length = 40
      rw [copyLoop_full _ _ 40 inv.cells hst.1]; exact inv.cells
    · show (copyLoop _ 12 0 _).length = 12
      rw [copyLoop_full _ _ 12 inv.temps hst.2.1]; exact inv.temps
    · exact (strncpy_set_length _ _ 255 (by rw [hst.2.2]; decide)).trans hst.2.2

/-- C9, at a connected manager after one acquisition cycle at clock reading 1000, read into an
all-zero structure. -/
theorem getBatteryStatus_full_copy_witness :
    Reachable exSampled ∧ zeroStatus.WellFormed ∧
    (exSampled.getBatteryStatus (some zeroStatus)).1 = 0 ∧
    ∃ out : G1BatteryStatus, (exSampled.getBatteryStatus (some zeroStatus)).2.2 = some out ∧
      out.cell_voltages = exSampled.latest_bms_data_.cell_voltages ∧
      out.cell_voltages.length = 40 ∧
      out.temperatures = exSampled.latest_bms_data_.temperatures ∧
      out.temperatures.length = 12 ∧
      out.timestamp = 1000 :=
  have hr : Reachable exSampled := (Reachable.getInstance rand0).run _
  have hw : zeroStatus.WellFormed :=
    ⟨List.length_replicate 40 _, List.length_replicate 12 _, List.length_replicate 256 _⟩
  have h := getBatteryStatus_full_copy exSampled zeroStatus hr hw rfl
  have hs := h.2.2.2.choose_spec
  ⟨hr, hw, rfl, h.2.2.2.choose, hs.1, hs.2.1, hs.2.2.2.2.2.2.2.2.2.2.2.2.2.1,
    hs.2.2.1, hs.2.2.2.2.2.2.2.2.2.2.2.2.2.2.1, hs.2.2.2.2.2.2.2.2.2.2.2.2.1.trans rfl⟩

/-- C6 as stated fails: the timestamp is the reading of `system_clock`, which may be set back
between two cycles. With a cycle at reading 1700000002000, a read, a cycle at reading
1700000001000 and a read, the two successful reads return the timestamps 1700000002000 and then
1700000001000. -/
theorem timestamps_follow_clock_back :
    observedTimestamps exFresh exClockSetBack = [1700000002000, 1700000001000] ∧
      ¬ (observedTimestamps exFresh exClockSetBack).Pairwise (fun a b => a ≤ b) :=
  ⟨by decide, by decide⟩

/-- C6, amended: over every sequence of public calls and acquisition cycles from the start of
the process, reconnections included, if the clock readings taken by the successive cycles are
non-negative 64-bit counts and do not decrease, then the timestamps returned by the successive
successful `getBatteryStatus` calls and passed to the successive subscriber calls do not
decrease. -/
theorem timestamps_monotone (rand : Nat → Nat) (es : List Event)
    (hmono : (clockReadings (G1SDKManager.getInstance rand) es).Pairwise (fun a b => a ≤ b))
    (hrange : ∀ r ∈ clockReadings (G1SDKManager.getInstance rand) es, 0 ≤ r ∧ r < 2 ^ 64) :
    (observedTimestamps (G1SDKManager.getInstance rand) es).Pairwise (fun a b => a ≤ b) :=
  (run_seg es (G1SDKManager.getInstance rand)
    ⟨hmono, fun r hr => ⟨(hrange r hr).1, (hrange r hr).2, Nat.zero_le _⟩⟩).1

/-- C6 amended, at a run with a subscriber, a cycle at reading 1000, a disconnect, a reconnect
and a cycle at reading 2000. -/
theorem timestamps_monotone_witness :
    (clockReadings exFresh exReconnect).Pairwise (fun a b => a ≤ b) ∧
    (∀ r ∈ clockReadings exFresh exReconnect, 0 ≤ r ∧ r < 2 ^ 64) ∧
    observedTimestamps exFresh exReconnect = [1000, 1000, 1000, 2000, 2000] ∧
    (observedTimestamps exFresh exReconnect).Pairwise (fun a b => a ≤ b) :=
  ⟨by decide, by decide, by decide, timestamps_monotone rand0 exReconnect (by decide) (by decide)⟩

/-- C7 as stated fails: `cleanup()` resets only the lifecycle flags. After initialise, connect,
one acquisition cycle at reading 1000 and `cleanup()`, the stored sample still carries the
timestamp 1000 and the cycle counter is 1, whereas a never-initialised manager has timestamp 0
and counter 0: the state is that of no never-initialised manager. -/
theorem cleanup_keeps_sample :
    exSampled.initialized_ = true ∧ exSampled.connected_ = true ∧
    exSampled.cleanup.latest_bms_data_.timestamp = 1000 ∧ exSampled.cleanup.counter = 1 ∧
    (∀ rand : Nat → Nat, (G1SDKManager.getInstance rand).latest_bms_data_.timestamp = 0 ∧
      (G1SDKManager.getInstance rand).counter = 0 ∧
      exSampled.cleanup ≠ G1SDKManager.getInstance rand) :=
  ⟨rfl, rfl, rfl, rfl, fun rand => ⟨rfl, rfl, fun h =>
    have h2 : (1 : Int) = 0 := congrArg G1SDKManager.counter h
    absurd h2 (by decide)⟩⟩

/-- C7, amended: from every state the program can reach with `initialized_` true (initialised,
connected or disconnected), `cleanup()` leaves the manager not initialised, not connected,
without thread and with no live acquisition thread; it is `disconnect()` followed by clearing
`initialized_`, so a connected manager is disconnected first and then has `running_` false. The
stored sample, the subscriber, the last error and the cycle counter are not reset: they stay as
they were. A second `cleanup()` changes nothing and a following `connect()` returns -1. -/
theorem cleanup_contract (s : G1SDKManager) (ts : ThreadStart)
    (early : List (Int × G1BatteryStatus)) (hr : Reachable s) (hi : s.initialized_ = true) :
    s.cleanup = { s.disconnect.2 with initialized_ := false } ∧
    s.cleanup.initialized_ = false ∧
    s.cleanup.connected_ = false ∧
    s.cleanup.data_thread_ = false ∧
    s.cleanup.threads_alive = 0 ∧
    (s.connected_ = true → s.cleanup.running_ = false) ∧
    s.cleanup.latest_bms_data_ = s.latest_bms_data_ ∧
    s.cleanup.callback_ = s.callback_ ∧
    s.cleanup.last_error_ = s.last_error_ ∧
    s.cleanup.counter = s.counter ∧
    s.cleanup.cleanup = s.cleanup ∧
    (s.cleanup.connect ts early).1 = -1 := by
  have e : s.cleanup = { s.disconnect.2 with initialized_ := false } := by
    simp [G1SDKManager.cleanup, hi]
  have hd := disconnect_connected_false s
  have inv := disconnect_inv s hr.inv
  have h1 : s.cleanup.initialized_ = false := by rw [e]
  have hkeep : s.disconnect.2.callback_ = s.callback_ ∧
      s.disconnect.2.last_error_ = s.last_error_ ∧ s.disconnect.2.counter = s.counter := by
    rcases Bool.eq_false_or_eq_true s.connected_ with hc | hc
    · rw [disconnect_of_connected s hc (hr.inv.thread.trans hc)]
      exact ⟨rfl, rfl, rfl⟩
    · rw [disconnect_of_not_connected s hc]
      exact ⟨rfl, rfl, rfl⟩
  refine ⟨e, h1, ?_, ?_, ?_, ?_, cleanup_latest s, ?_, ?_, ?_, ?_, ?_⟩
  · rw [e]; exact hd
  · rw [e]; exact inv.thread.trans hd
  · rw [e]
    show s.disconnect.2.threads_alive = 0
    rw [inv.alive, hd]; rfl
  · intro hc
    rw [e, disconnect_of_connected s hc (hr.inv.thread.trans hc)]
  · rw [e]; exact hkeep.1
  · rw [e]; exact hkeep.2.1
  · rw [e]; exact hkeep.2.2
  · exact cleanup_of_not_initialized _ h1
  · rw [connect_of_not_initialized _ ts early h1]

/-- C7 amended, at the connected manager after one acquisition cycle. -/
theorem cleanup_contract_witness :
    Reachable exSampled ∧ exSampled.initialized_ = true ∧
    exSampled.cleanup.initialized_ = false ∧ exSampled.cleanup.connected_ = false ∧
    exSampled.cleanup.data_thread_ = false ∧ exSampled.cleanup.threads_alive = 0 ∧
    exSampled.cleanup.cleanup = exSampled.cleanup ∧
    (exSampled.cleanup.connect .started []).1 = -1 :=
  have hr : Reachable exSampled := (Reachable.getInstance rand0).run _
  have h := cleanup_contract exSampled .started [] hr rfl
  ⟨hr, rfl, h.2.1, h.2.2.1, h.2.2.2.1, h.2.2.2.2.1, h.2.2.2.2.2.2.2.2.2.2.1,
    h.2.2.2.2.2.2.2.2.2.2.2⟩

/-- C8: the code breaks the claim. The loop sets out to call the registered subscriber in every
iteration (lines 232-238), through a read-back `getBatteryStatus(&status)` that succeeds only
while `connected_` is set; but `connect()` starts the thread (line 129) before it sets
`connected_` (line 131), whereas `disconnect()` keeps the flag set until the thread is joined.
With a subscriber registered, an iteration that the new thread completes in between runs with
`running_` true (the counter goes to 1, the store gets the timestamp 1000) and calls nothing,
and the `connect()` that returns 0 leaves the not-connected text as the last error. -/
theorem early_cycle_skips_subscriber :
    ((exInitialized.setBatteryCallback (some 1)).2.connect .started [(1000, zeroStatus)]).1 = 0 ∧
    (run exFresh exEarlyCycle).2 = [] ∧
    (run exFresh exEarlyCycle).1.callback_ = some 1 ∧
    (run exFresh exEarlyCycle).1.counter = 1 ∧
    (run exFresh exEarlyCycle).1.latest_bms_data_.timestamp = 1000 ∧
    (run exFresh exEarlyCycle).1.last_error_ = ERR_NOT_CONNECTED ∧
    (exInitialized.setBatteryCallback (some 1)).2.connect_spawn.running_ = true ∧
    (exInitialized.setBatteryCallback (some 1)).2.connect_spawn.callback_ = some 1 ∧
    ((exInitialized.setBatteryCallback (some 1)).2.connect_spawn.dataReceiveLoop_iteration
      1000 zeroStatus).2 = [] :=
  ⟨rfl, rfl, rfl, rfl, rfl, rfl, rfl, rfl, rfl⟩

/-- Delivery outside that window. In one iteration of the loop, run on a manager whose stored
sample has its 40 and 12 entries, with a local structure of the declared array lengths: if the
subscriber slot is null nothing is called; if a subscriber is registered and `connected_` is
set, it is called exactly once, with a structure that holds the timestamp (the clock reading of
this iteration), the 40 cell voltages, the 12 temperatures and every scalar of the sample this
iteration stored. Between two public calls the thread exists only while `connected_` is set.
`setBatteryCallback` returns 0 in every state and replaces the one stored subscriber, changing
nothing else. -/
theorem callback_delivery (s : G1SDKManager) (now : Int) (status : G1BatteryStatus)
    (hw : status.WellFormed) (hcells : s.latest_bms_data_.cell_voltages.length = 40)
    (htemps : s.latest_bms_data_.temperatures.length = 12) :
    (s.callback_ = none →
      s.dataReceiveLoop_iteration now status = (s.updateSimulatedData now, [])) ∧
    (∀ f : BatteryStatusCallback, s.callback_ = some f → s.connected_ = true →
      s.dataReceiveLoop_iteration now status =
        (s.updateSimulatedData now,
          [(f, convert (s.updateSimulatedData now).latest_bms_data_ status)])) ∧
    (convert (s.updateSimulatedData now).latest_bms_data_ status).timestamp = toUInt64 now ∧
    (convert (s.updateSimulatedData now).latest_bms_data_ status).timestamp =
      (s.dataReceiveLoop_iteration now status).1.latest_bms_data_.timestamp ∧
    (convert (s.updateSimulatedData now).latest_bms_data_ status).cell_voltages =
      (s.dataReceiveLoop_iteration now status).1.latest_bms_data_.cell_voltages ∧
    (convert (s.updateSimulatedData now).latest_bms_data_ status).temperatures =
      (s.dataReceiveLoop_iteration now status).1.latest_bms_data_.temperatures ∧
    (convert (s.updateSimulatedData now).latest_bms_data_ status).voltage =
      (s.dataReceiveLoop_iteration now status).1.latest_bms_data_.voltage ∧
    (convert (s.updateSimulatedData now).latest_bms_data_ status).current =
      (s.dataReceiveLoop_iteration now status).1.latest_bms_data_.current ∧
    (convert (s.updateSimulatedData now).latest_bms_data_ status).temperature =
      (s.dataReceiveLoop_iteration now status).1.latest_bms_data_.temperature ∧
    (convert (s.updateSimulatedData now).latest_bms_data_ status).capacity =
      (s.dataReceiveLoop_iteration now status).1.latest_bms_data_.capacity ∧
    (convert (s.updateSimulatedData now).latest_bms_data_ status).cycle_count =
      (s.dataReceiveLoop_iteration now status).1.latest_bms_data_.cycle_count ∧
    (convert (s.updateSimulatedData now).latest_bms_data_ status).is_charging =
      (s.dataReceiveLoop_iteration now status).1.latest_bms_data_.is_charging ∧
    (convert (s.updateSimulatedData now).latest_bms_data_ status).is_discharging =
      (s.dataReceiveLoop_iteration now status).1.latest_bms_data_.is_discharging ∧
    (convert (s.updateSimulatedData now).latest_bms_data_ status).health_status =
      (s.dataReceiveLoop_iteration now status).1.latest_bms_data_.health_status ∧
    (convert (s.updateSimulatedData now).latest_bms_data_ status).error_code =
      (s.dataReceiveLoop_iteration now status).1.latest_bms_data_.error_code ∧
    (Reachable s → s.data_thread_ = true → s.connected_ = true) ∧
    (∀ callback : Option BatteryStatusCallback,
      s.setBatteryCallback callback = (0, { s with callback_ := callback })) := by
  have hl : (s.dataReceiveLoop_iteration now status).1.latest_bms_data_ =
      (s.updateSimulatedData now).latest_bms_data_ := by
    rcases hcb : s.callback_ with _ | f
    · rw [iteration_no_callback s now status hcb]
    · rcases Bool.eq_false_or_eq_true s.connected_ with hc | hc
      · rw [iteration_connected s now status f hcb hc]
      · rw [iteration_not_connected s now status f hcb hc]
  have hc40 : (s.updateSimulatedData now).latest_bms_data_.cell_voltages.length = 40 :=
    (update_frame s now).cells.trans hcells
  have ht12 : (s.updateSimulatedData now).latest_bms_data_.temperatures.length = 12 :=
    (update_frame s now).temps.trans htemps
  rw [hl]
  exact ⟨iteration_no_callback s now status, iteration_connected s now status, rfl, rfl,
    copyLoop_full _ _ 40 hc40 hw.1, copyLoop_full _ _ 12 ht12 hw.2.1, rfl, rfl, rfl, rfl, rfl,
    rfl, rfl, rfl, rfl, fun hr ht => hr.inv.thread.symm.trans ht, fun _ => rfl⟩

/-- Delivery at a connected manager with subscriber 1, in the cycle at clock reading 1000: one
call, with timestamp 1000. -/
theorem callback_delivery_witness :
    zeroStatus.WellFormed ∧
    exSubscribed.latest_bms_data_.cell_voltages.length = 40 ∧
    exSubscribed.latest_bms_data_.temperatures.length = 12 ∧
    (exSubscribed.dataReceiveLoop_iteration 1000 zeroStatus).2 =
      [(1, convert (exSubscribed.updateSimulatedData 1000).latest_bms_data_ zeroStatus)] ∧
    (convert (exSubscribed.updateSimulatedData 1000).latest_bms_data_ zeroStatus).timestamp
      = 1000 :=
  have hw : zeroStatus.WellFormed :=
    ⟨List.length_replicate 40 _, List.length_replicate 12 _, List.length_replicate 256 _⟩
  have hr : Reachable exSubscribed := (Reachable.getInstance rand0).run _
  have h := callback_delivery exSubscribed 1000 zeroStatus hw hr.inv.cells hr.inv.temps
  ⟨hw, hr.inv.cells, hr.inv.temps, congrArg Prod.snd (h.2.1 1 rfl rfl), h.2.2.1.trans rfl⟩

end G1SDK
